import Mathlib

/-!
Shallow embedding of `royale-sys/wrapper.cpp`, the C-ABI adapter over the
royale time-of-flight camera SDK.  Pointers are modelled as `Nat` bit
patterns (with `Option Nat` where the source distinguishes null), C `int`
status codes as `Int`, byte buffers as `List Nat`, and writes to caller
out-parameters as a `Cell` that records whether the adapter wrote the slot.
The SDK itself is external to the repository; each adapter function takes
the outcome of its SDK calls (status code, values the SDK produced) as an
explicit environment argument and the theorems quantify over it.
-/

/-- Modelled from the spec: the integer value of the external SDK enumeration
member `royale::CameraStatus::SUCCESS`; the spec states the status space is
"Zero-compatible (SUCCESS)", so SUCCESS is the zero code. -/
def SUCCESS : Int := 0

/-- Embedding of `toCameraStatus`: `static_cast<royale::CameraStatus>` on an
`int`, which preserves the integer value. -/
def toCameraStatus (camera_status : Int) : Int := camera_status

/-- Embedding of `is_camera_status_success` (wrapper.cpp lines 200-204). -/
def is_camera_status_success (camera_status : Int) : Bool :=
  toCameraStatus camera_status == SUCCESS

/-- How a heap block was allocated / deallocated: `new`/`delete` (scalar)
versus `new[]`/`delete[]` (array). -/
inductive AllocKind where
  | scalar
  | array
deriving DecidableEq

/-- A heap-allocated C string as produced by the adapter: the allocation
form, the number of bytes allocated (`new char[size]`), and the bytes the
adapter writes into (and possibly past) that allocation. -/
structure HeapString where
  kind : AllocKind
  size : Nat
  bytes : List Nat
deriving DecidableEq

/-- `royale::String::data()`: the content bytes followed by the
terminating null byte. -/
def cstr_data (s : List Nat) : List Nat := s ++ [0]

/-- `strcpy(dst, src)`: the bytes written are the source bytes up to and
including the first null byte. -/
def strcpy (src : List Nat) : List Nat :=
  src.takeWhile (fun b => b != 0) ++ [0]

/-- The three duplicated lines shared by `camera_status_to_string` and
`string_vector_get`: `char* output = new char[string.size()];
strcpy(output, string.data()); return output;` for a `royale::String`
whose content bytes are `s` (so `size()` is `s.length`). -/
def copy_to_heap_cstring (s : List Nat) : HeapString :=
  ⟨AllocKind.array, s.length, strcpy (cstr_data s)⟩

/-- Embedding of `camera_status_to_string` (wrapper.cpp lines 206-214),
applied to the content bytes `s` of the `royale::String` that the external
`royale::getStatusString` returned for the given status. -/
def camera_status_to_string (s : List Nat) : HeapString :=
  copy_to_heap_cstring s

/-- Embedding of `string_vector_get` (wrapper.cpp lines 235-243): the
vector is a list of strings (each a list of content bytes); indexing by
`operator[]` is unchecked in the source, so the model takes the bound as a
hypothesis. -/
def string_vector_get (v : List (List Nat)) (i : Nat) (h : i < v.length) :
    HeapString :=
  copy_to_heap_cstring (v.get ⟨i, h⟩)

/-- Embedding of `string_vector_length` (wrapper.cpp lines 229-233). -/
def string_vector_length (v : List (List Nat)) : Nat := v.length

/-- Embedding of `delete_string` (wrapper.cpp lines 216-220): the body is
`delete string;`, a scalar deallocation. -/
def delete_string : AllocKind := AllocKind.scalar

/-- Whether every byte the adapter wrote landed inside the heap
allocation. -/
def HeapString.fitsAllocation (h : HeapString) : Bool :=
  h.bytes.length ≤ h.size

/-- Whether the written bytes form a null-terminated string. -/
def HeapString.nullTerminated (h : HeapString) : Bool :=
  h.bytes.getLast? == some 0

/-- Embedding of `DataListener` (wrapper.cpp lines 14-32): the callback
function pointer and the opaque payload pointer stored at construction,
both as bit patterns. -/
structure DataListener where
  callback : Nat
  payload : Nat
deriving DecidableEq

/-- One invocation of the foreign callback: the function pointer invoked,
the frame-pointer argument and the context-pointer argument. -/
structure CallbackInvocation where
  fn : Nat
  frame : Nat
  ctx : Nat
deriving DecidableEq

/-- `reinterpret_cast<const Frame*>` on a pointer: the bit pattern is
unchanged. -/
def toFramePtr (p : Nat) : Nat := p

/-- Embedding of `DataListener::onNewData` (wrapper.cpp lines 23-26): the
list of foreign-callback invocations one delivery performs. -/
def DataListener.onNewData (l : DataListener) (data : Nat) :
    List CallbackInvocation :=
  [⟨l.callback, toFramePtr data, l.payload⟩]

/-- The observable actions `camera_delete` performs, in order. -/
inductive DeleteEvent where
  | unregisterListener
  | freeListener
  | freeCamera
deriving DecidableEq

/-- Embedding of `camera_delete` (wrapper.cpp lines 147-155) as the ordered
trace of actions it performs, depending on whether `listener` is null. -/
def camera_delete (listenerIsNull : Bool) : List DeleteEvent :=
  if listenerIsNull then
    [DeleteEvent.freeCamera]
  else
    [DeleteEvent.unregisterListener, DeleteEvent.freeListener,
     DeleteEvent.freeCamera]

/-- A caller-provided out-parameter slot: either the adapter never wrote it
(it still holds whatever the caller wrote before the call) or the adapter
wrote the given value. -/
inductive Cell (α : Type) where
  | untouched
  | written (value : α)
deriving DecidableEq

/-- Outcomes of the SDK calls `camera_attach` makes, supplied as an
environment: the connected-camera count, the (possibly null) device pointer
`createCamera(...).release()` yields, and the statuses of `initialize()`
and `registerDataListener(...)`. -/
structure AttachEnv where
  connectedCount : Nat
  createdDevice : Option Nat
  initStatus : Int
  registerStatus : Int
deriving DecidableEq

/-- What `camera_attach` returns and what it did to its two out-parameter
slots. -/
structure AttachResult where
  status : Int
  camera : Cell (Option Nat)
  listener : Cell DataListener
deriving DecidableEq

/-- Embedding of `camera_attach` (wrapper.cpp lines 40-59).  Mirrors the
source control flow: when the list is non-empty, `*camera` is written with
the created device pointer before the null check; on a non-null device,
`initialize()` is tried (returning its status on failure with `*listener`
still unwritten), then the listener is constructed and written to
`*listener`, then `registerDataListener` is tried; every fall-through path
returns `OK`. -/
def camera_attach (callback : Nat) (payload : Nat) (env : AttachEnv) :
    AttachResult :=
  if env.connectedCount > 0 then
    let cameraDevice := env.createdDevice
    match cameraDevice with
    | some _ =>
      if env.initStatus ≠ SUCCESS then
        ⟨env.initStatus, Cell.written cameraDevice, Cell.untouched⟩
      else
        let l : DataListener := ⟨callback, payload⟩
        if env.registerStatus ≠ SUCCESS then
          ⟨env.registerStatus, Cell.written cameraDevice, Cell.written l⟩
        else
          ⟨SUCCESS, Cell.written cameraDevice, Cell.written l⟩
    | none => ⟨SUCCESS, Cell.written none, Cell.untouched⟩
  else
    ⟨SUCCESS, Cell.untouched, Cell.untouched⟩

/-- Outcome of the SDK call `getExposureLimits(pair)`: its status and the
pair contents after the call. -/
structure ExposureLimitsEnv where
  st : Int
  first : Nat
  second : Nat
deriving DecidableEq

/-- Embedding of `camera_get_exposure_limits` (wrapper.cpp lines 116-124):
`low` and `high` are the prior contents of the caller slots; the result is
the returned status and the slot contents after the call.  The SDK call is
tried first; only on SUCCESS does the adapter write the pair into the
slots. -/
def camera_get_exposure_limits (env : ExposureLimitsEnv)
    (low high : Nat) : Int × Nat × Nat :=
  if env.st ≠ SUCCESS then (env.st, low, high)
  else (SUCCESS, env.first, env.second)

/-- The SDK exposure-mode enumeration members the adapter uses. -/
inductive ExposureMode where
  | MANUAL
  | AUTOMATIC
deriving DecidableEq

/-- Embedding of `camera_set_exposure_mode` (wrapper.cpp lines 107-114):
given the status of the SDK `setExposureMode` call, returns the adapter
status and the mode value the adapter passed to the SDK. -/
def camera_set_exposure_mode (sdkSetStatus : Int) (isManual : Bool) :
    Int × ExposureMode :=
  let exposureMode :=
    if isManual then ExposureMode.MANUAL else ExposureMode.AUTOMATIC
  (if sdkSetStatus ≠ SUCCESS then sdkSetStatus else SUCCESS, exposureMode)

/-- Embedding of `camera_get_exposure_mode` (wrapper.cpp lines 98-105):
`sdkMode` is the value the SDK `getExposureMode` call wrote into the local,
`isManual` the prior content of the caller slot; the result is the status
and the slot content after the call. -/
def camera_get_exposure_mode (sdkGetStatus : Int) (sdkMode : ExposureMode)
    (isManual : Bool) : Int × Bool :=
  if sdkGetStatus ≠ SUCCESS then (sdkGetStatus, isManual)
  else (SUCCESS, decide (sdkMode = ExposureMode.MANUAL))

theorem strcpy_no_null (s : List Nat) (h : (0 : Nat) ∉ s) :
    strcpy (cstr_data s) = s ++ [0] := by
  unfold strcpy cstr_data
  congr 1
  induction s with
  | nil => simp [List.takeWhile]
  | cons a t ih =>
    simp only [List.mem_cons, not_or] at h
    rw [List.cons_append, List.takeWhile_cons]
    have ha : (a != 0) = true := by simpa using Ne.symm h.1
    rw [ha]
    simp only [if_true]
    have ht : (0 : Nat) ∉ t := h.2
    rw [ih ht]

/-- Claim C1: with zero connected cameras, `camera_attach` returns SUCCESS
and writes neither `*camera` nor `*listener`; both slots keep whatever the
caller stored before the call. -/
theorem camera_attach_no_device_silent_success :
    ∀ (cb pl : Nat) (env : AttachEnv),
      env.connectedCount = 0 →
      camera_attach cb pl env = ⟨SUCCESS, Cell.untouched, Cell.untouched⟩ := by
  intro cb pl env h
  simp [camera_attach, h]

theorem camera_attach_no_device_silent_success_witness :
    camera_attach 11 22 ⟨0, some 5, 3, 4⟩ =
      ⟨SUCCESS, Cell.untouched, Cell.untouched⟩ :=
  camera_attach_no_device_silent_success 11 22 ⟨0, some 5, 3, 4⟩ rfl

/-- Claim C2, counterexample: for the SDK string "SUCCESS" (7 bytes),
`camera_status_to_string` allocates 7 bytes but writes 8, so the written
string does not fit within its heap allocation. -/
theorem camera_status_to_string_overflow_cex :
    (camera_status_to_string [83, 85, 67, 67, 69, 83, 83]).fitsAllocation
        = false ∧
      (camera_status_to_string [83, 85, 67, 67, 69, 83, 83]).bytes.length =
        (camera_status_to_string [83, 85, 67, 67, 69, 83, 83]).size + 1 := by
  decide

/-- Claim C2, amended: every C string returned by `camera_status_to_string`
or `string_vector_get` is a null-terminated copy of the SDK string, but the
heap allocation holds only `size()` bytes while `size() + 1` bytes are
written; the terminating null byte lands one past the end of the
allocation. -/
theorem copied_strings_null_terminated_one_past_alloc :
    ∀ (s : List Nat), (0 : Nat) ∉ s →
      ((camera_status_to_string s).nullTerminated = true ∧
        (camera_status_to_string s).bytes = s ++ [0] ∧
        (camera_status_to_string s).size = s.length ∧
        (camera_status_to_string s).bytes.length =
          (camera_status_to_string s).size + 1) ∧
      ∀ (v : List (List Nat)) (i : Nat) (h : i < v.length),
        v.get ⟨i, h⟩ = s →
        (string_vector_get v i h).nullTerminated = true ∧
        (string_vector_get v i h).bytes = s ++ [0] ∧
        (string_vector_get v i h).size = s.length ∧
        (string_vector_get v i h).bytes.length =
          (string_vector_get v i h).size + 1 := by
  intro s hs
  have hcopy : copy_to_heap_cstring s =
      ⟨AllocKind.array, s.length, s ++ [0]⟩ := by
    unfold copy_to_heap_cstring
    rw [strcpy_no_null s hs]
  constructor
  · unfold camera_status_to_string
    rw [hcopy]
    refine ⟨by simp [HeapString.nullTerminated], rfl, rfl, by simp⟩
  · intro v i h hv
    unfold string_vector_get
    rw [hv, hcopy]
    refine ⟨by simp [HeapString.nullTerminated], rfl, rfl, by simp⟩

theorem copied_strings_null_terminated_one_past_alloc_witness :
    ((camera_status_to_string [83]).nullTerminated = true ∧
      (camera_status_to_string [83]).bytes = [83] ++ [0] ∧
      (camera_status_to_string [83]).size = [83].length ∧
      (camera_status_to_string [83]).bytes.length =
        (camera_status_to_string [83]).size + 1) ∧
    ((string_vector_get [[83]] 0 (by decide)).nullTerminated = true ∧
      (string_vector_get [[83]] 0 (by decide)).bytes = [83] ++ [0] ∧
      (string_vector_get [[83]] 0 (by decide)).size = [83].length ∧
      (string_vector_get [[83]] 0 (by decide)).bytes.length =
        (string_vector_get [[83]] 0 (by decide)).size + 1) :=
  ⟨(copied_strings_null_terminated_one_past_alloc [83] (by decide)).1,
    (copied_strings_null_terminated_one_past_alloc [83] (by decide)).2
      [[83]] 0 (by decide) rfl⟩

/-- Claim C3: `is_camera_status_success` returns true exactly on the SDK
SUCCESS value. -/
theorem is_camera_status_success_iff :
    ∀ (c : Int), is_camera_status_success c = true ↔ c = SUCCESS := by
  intro c
  simp [is_camera_status_success, toCameraStatus]

/-- Claim C4: `camera_get_exposure_limits` returns any non-SUCCESS SDK
status immediately without touching the `low`/`high` slots, and writes the
SDK pair into them exactly when the SDK call returns SUCCESS. -/
theorem camera_get_exposure_limits_writes_only_on_success :
    ∀ (env : ExposureLimitsEnv) (low high : Nat),
      (env.st ≠ SUCCESS →
        camera_get_exposure_limits env low high = (env.st, low, high)) ∧
      (env.st = SUCCESS →
        camera_get_exposure_limits env low high =
          (SUCCESS, env.first, env.second)) := by
  intro env low high
  constructor <;> intro h <;> simp [camera_get_exposure_limits, h]

theorem camera_get_exposure_limits_writes_only_on_success_witness :
    camera_get_exposure_limits ⟨3, 5, 7⟩ 1 2 = (3, 1, 2) ∧
    camera_get_exposure_limits ⟨0, 5, 7⟩ 1 2 = (0, 5, 7) :=
  ⟨(camera_get_exposure_limits_writes_only_on_success ⟨3, 5, 7⟩ 1 2).1
      (by decide),
    (camera_get_exposure_limits_writes_only_on_success ⟨0, 5, 7⟩ 1 2).2
      (by decide)⟩

/-- Claim C5: one SDK frame delivery invokes the foreign callback exactly
once, with the frame pointer passed through unchanged (the cast preserves
the bit pattern) and the payload stored at construction as the second
argument. -/
theorem onNewData_single_invocation_passthrough :
    ∀ (cb pl frame : Nat),
      DataListener.onNewData ⟨cb, pl⟩ frame = [⟨cb, frame, pl⟩] ∧
      toFramePtr frame = frame ∧
      (DataListener.onNewData ⟨cb, pl⟩ frame).length = 1 := by
  intro cb pl frame
  exact ⟨rfl, rfl, rfl⟩

/-- Claim C6: with a non-null listener, `camera_delete` deregisters the
listener, then frees it, then frees the camera, in that order; with a null
listener it only frees the camera. -/
theorem camera_delete_order :
    camera_delete false =
      [DeleteEvent.unregisterListener, DeleteEvent.freeListener,
        DeleteEvent.freeCamera] ∧
    camera_delete true = [DeleteEvent.freeCamera] :=
  ⟨rfl, rfl⟩

/-- Claim C7, counterexample: the string returned by
`camera_status_to_string` is array-allocated (`new char[]`), but
`delete_string` performs a scalar `delete`, so the deallocation form does
not match the allocation. -/
theorem delete_string_mismatch_cex :
    (camera_status_to_string [83]).kind = AllocKind.array ∧
    delete_string = AllocKind.scalar ∧
    delete_string ≠ (camera_status_to_string [83]).kind := by
  decide

/-- Claim C7, amended: every string returned by `camera_status_to_string`
or `string_vector_get` is array-allocated, while `delete_string` releases
with a scalar `delete`; the deallocation form never matches the allocation
(undefined behavior on release). -/
theorem delete_string_scalar_on_array_alloc :
    ∀ (s : List Nat),
      (camera_status_to_string s).kind = AllocKind.array ∧
      delete_string = AllocKind.scalar ∧
      delete_string ≠ (camera_status_to_string s).kind ∧
      ∀ (v : List (List Nat)) (i : Nat) (h : i < v.length),
        (string_vector_get v i h).kind = AllocKind.array ∧
        delete_string ≠ (string_vector_get v i h).kind := by
  intro s
  refine ⟨rfl, rfl, by simp [delete_string, camera_status_to_string,
    copy_to_heap_cstring], ?_⟩
  intro v i h
  exact ⟨rfl, by simp [delete_string, string_vector_get,
    copy_to_heap_cstring]⟩

theorem delete_string_scalar_on_array_alloc_witness :
    (string_vector_get [[83]] 0 (by decide)).kind = AllocKind.array ∧
    delete_string ≠ (string_vector_get [[83]] 0 (by decide)).kind :=
  (delete_string_scalar_on_array_alloc [83]).2.2.2 [[83]] 0 (by decide)

/-- Claim C8: with a non-empty camera list but a null device from
`createCamera`, `camera_attach` returns SUCCESS, writes null into
`*camera`, and never writes `*listener`. -/
theorem camera_attach_null_device :
    ∀ (cb pl : Nat) (env : AttachEnv),
      0 < env.connectedCount → env.createdDevice = none →
      camera_attach cb pl env =
        ⟨SUCCESS, Cell.written none, Cell.untouched⟩ := by
  intro cb pl env hc hd
  simp [camera_attach, hc, hd]

theorem camera_attach_null_device_witness :
    camera_attach 11 22 ⟨1, none, 3, 4⟩ =
      ⟨SUCCESS, Cell.written none, Cell.untouched⟩ :=
  camera_attach_null_device 11 22 ⟨1, none, 3, 4⟩ (by decide) rfl

/-- Claim C9: `camera_set_exposure_mode` passes MANUAL to the SDK exactly
when its argument is true, `camera_get_exposure_mode` writes true exactly
when the SDK mode is MANUAL, and with both SDK calls succeeding, set
followed by get round-trips the boolean. -/
theorem exposure_mode_mapping_roundtrip :
    ∀ (b : Bool) (st : Int) (m : ExposureMode) (prior : Bool),
      (camera_set_exposure_mode st b).2 =
        (if b then ExposureMode.MANUAL else ExposureMode.AUTOMATIC) ∧
      ((camera_get_exposure_mode SUCCESS m prior).2 = true ↔
        m = ExposureMode.MANUAL) ∧
      (camera_get_exposure_mode SUCCESS
        (camera_set_exposure_mode SUCCESS b).2 prior).2 = b := by
  intro b st m prior
  refine ⟨rfl, ?_, ?_⟩
  · cases m <;> simp [camera_get_exposure_mode]
  · cases b <;>
      simp [camera_get_exposure_mode, camera_set_exposure_mode]

/-- Claim C10: with a non-null device, a failing `camera_attach` has
already populated out-parameters: after an initialization failure `*camera`
holds the device and `*listener` is untouched; after a registration
failure both `*camera` and `*listener` have been written; either way the
failing SDK status is returned. -/
theorem camera_attach_partial_population_on_failure :
    ∀ (cb pl : Nat) (env : AttachEnv) (d : Nat),
      0 < env.connectedCount → env.createdDevice = some d →
      (env.initStatus ≠ SUCCESS →
        camera_attach cb pl env =
          ⟨env.initStatus, Cell.written (some d), Cell.untouched⟩) ∧
      (env.initStatus = SUCCESS → env.registerStatus ≠ SUCCESS →
        camera_attach cb pl env =
          ⟨env.registerStatus, Cell.written (some d),
            Cell.written ⟨cb, pl⟩⟩) := by
  intro cb pl env d hc hd
  constructor
  · intro hi
    simp [camera_attach, hc, hd, hi]
  · intro hi hr
    simp [camera_attach, hc, hd, hi, hr]

theorem camera_attach_partial_population_on_failure_witness :
    camera_attach 11 22 ⟨1, some 5, 7, 0⟩ =
      ⟨7, Cell.written (some 5), Cell.untouched⟩ ∧
    camera_attach 11 22 ⟨1, some 5, 0, 9⟩ =
      ⟨9, Cell.written (some 5), Cell.written ⟨11, 22⟩⟩ :=
  ⟨(camera_attach_partial_population_on_failure 11 22 ⟨1, some 5, 7, 0⟩ 5
      (by decide) rfl).1 (by decide),
    (camera_attach_partial_population_on_failure 11 22 ⟨1, some 5, 0, 9⟩ 5
      (by decide) rfl).2 rfl (by decide)⟩
